import Mathlib

/-!
Shallow embedding of the client-side session / tenant-switching logic of the
multi-tenant todo SaaS frontend: the browser local storage holding the session,
the axios response interceptor, the periodic session validator hook, the login
and tenant-switch handlers, and the dashboard metrics polling loop.

Sources embedded:
- `src/hooks/useSessionValidator.js` (validateSession, useSessionValidator)
- `src/api/axios.js` (response interceptor)
- `src/pages/Login.js` (handleLogin, handleTenantSelect)
- `src/pages/Dashboard.js` (handleManualAggregation poll loop)
-/

namespace TodoSaaS

/-- The local-storage keys the client reads and writes
(`access`, `refresh`, `role`, `email`, `username`, `tenant`, `tenants`). -/
inductive StorageKey
  | access
  | refresh
  | role
  | email
  | username
  | tenant
  | tenants
deriving DecidableEq, Repr

/-- Browser local storage, restricted to the keys the client uses.
`getItem` on an absent key returns `none` (JS `null`). -/
def LocalStorage : Type := StorageKey → Option String

/-- Embeds `localStorage.getItem(key)`. -/
def LocalStorage.getItem (s : LocalStorage) (k : StorageKey) : Option String := s k

/-- Embeds `localStorage.setItem(key, value)`. -/
def LocalStorage.setItem (s : LocalStorage) (k : StorageKey) (v : String) :
    LocalStorage :=
  fun k' => if k' = k then some v else s k'

/-- Embeds `localStorage.clear()`: removes every stored field. -/
def LocalStorage.clear (_ : LocalStorage) : LocalStorage := fun _ => none

/-- The empty storage (fresh browser profile, nothing set). -/
def LocalStorage.empty : LocalStorage := fun _ => none

/-- JS truthiness of a `localStorage.getItem` result: `null` and the empty
string are falsy, every other string is truthy. -/
def jsTruthy : Option String → Bool
  | none => false
  | some s => s ≠ ""

/-- JS string interpolation of a possibly-null value (template literals render
`null` as the text "null"). -/
def jsStr : Option String → String
  | none => "null"
  | some s => s

/-- JS `a || b` for a possibly-absent string `a` with string fallback `b`:
yields `b` when `a` is null or the empty string. -/
def jsOrStr (a : Option String) (b : String) : String :=
  match a with
  | none => b
  | some s => if s = "" then b else s

/-- JS `String.prototype.includes`: substring containment. -/
def strIncludes (s pat : String) : Bool :=
  decide (pat.toList <:+: s.toList)

/-- Spec accessor `getToken()`: read of the stored access token. -/
def getToken (s : LocalStorage) : Option String := s.getItem .access

/-- Spec accessor `getRole()`. -/
def getRole (s : LocalStorage) : Option String := s.getItem .role

/-- Spec accessor `getUsername()`. -/
def getUsername (s : LocalStorage) : Option String := s.getItem .username

/-- Spec accessor `getTenantSchema()`. -/
def getTenantSchema (s : LocalStorage) : Option String := s.getItem .tenant

/-- Spec accessor `getTenantList()` (the serialized tenant list). -/
def getTenantList (s : LocalStorage) : Option String := s.getItem .tenants

end TodoSaaS

namespace TodoSaaS

/-- Observable side effects performed by the client code paths we embed,
in program order. -/
inductive Action
  | clearStorage
  | alert (msg : String)
  | navigate (path : String) (replaceFlag : Bool)
  | setHref (path : String)
  | setError (msg : String)
  | rejectToCaller
  | showTenantModal (visible : Bool)
  | apiSwitchTenant (schema : String)
  | cancelTimer
deriving DecidableEq, Repr

/-- A tenant-user record as returned by `customers/users/`
(the validator reads only `username` and `role`). -/
structure TenantUser where
  id : Nat
  username : String
  role : String
  joinedAt : String
deriving DecidableEq, Repr

/-- The body of a `customers/users/` response as the validator sees it:
a bare JSON array, the paginated shape `{results: [...]}`, a JSON null,
or some other non-array value. -/
inductive UsersData
  | arr (users : List TenantUser)
  | paginated (results : List TenantUser)
  | jsNull
  | other
deriving DecidableEq, Repr

/-- Embeds `Array.isArray(response.data)` combined with the truthiness guard
`response.data && ...`: only a bare array passes. -/
def UsersData.isBareArray : UsersData → Bool
  | .arr _ => true
  | _ => false

/-- An axios error as consumed by the client:
`error.response?.status`, `error.response?.data?.detail`,
`error.response?.data?.error` (all possibly absent, e.g. network failure). -/
structure AxiosError where
  status : Option Nat
  detail : Option String
  errorField : Option String
deriving DecidableEq, Repr

/-- The outcome of the `api.get("customers/users/")` call inside the
validator: a response body, or an axios error. -/
abbrev UsersResult : Type := Except AxiosError UsersData

/-- Alert text of the validator's removed-from-tenant branch. -/
def removedMsg : String :=
  "You have been removed from this organization by an administrator. Please contact your administrator if this was unexpected."

/-- Alert text of the validator's role-changed branch (template literal over
the stored role, which may be null, and the server-reported role). -/
def roleChangedMsg (storedRole : Option String) (newRole : String) : String :=
  "Your role has been changed from " ++ jsStr storedRole ++ " to " ++ newRole ++
    ". Please log in again to continue with your new permissions."

/-- Alert text of the validator's 401/403 failure branch. -/
def validatorSessionEndedMsg : String :=
  "Your session has ended. You may have been removed from this organization or your permissions have changed. Please log in again."

/-- Alert text of the interceptor's 401 branch. -/
def interceptorSessionEndedMsg : String :=
  "Your session has ended. This may be because your role was changed by an administrator. Please log in again."

/-- Alert text of the interceptor's heuristic 403 branch. -/
def permissionsChangedMsg : String :=
  "Your permissions have changed. This may be because your role was updated by an administrator. Please log in again."

/-- One check cycle of the session validator
(`validateSession` in `useSessionValidator.js`), given the current local
storage and the outcome of the membership-listing call. Returns the storage
after the cycle and the observable actions performed, in program order. -/
def validateSession (s : LocalStorage) (result : UsersResult) :
    LocalStorage × List Action :=
  let token := s.getItem .access
  if ¬ jsTruthy token then (s, [])
  else
    match result with
    | .ok data =>
      let currentUsername := s.getItem .username
      let storedRole := s.getItem .role
      if data.isBareArray then
        let users := match data with
          | .arr us => us
          | _ => []
        match users.find? (fun u => currentUsername = some u.username) with
        | none =>
          (s.clear,
            [.clearStorage, .alert removedMsg, .navigate "/login" true])
        | some currentUser =>
          if storedRole ≠ some currentUser.role then
            (s.clear,
              [.clearStorage, .alert (roleChangedMsg storedRole currentUser.role),
               .navigate "/login" true])
          else (s, [])
      else (s, [])
    | .error e =>
      if e.status = some 401 ∨ e.status = some 403 then
        (s.clear,
          [.clearStorage, .alert validatorSessionEndedMsg, .navigate "/login" true])
      else (s, [])

/-- Lifecycle events seen by the `useSessionValidator` effect after its
mount-time check: interval ticks and the unmount (cleanup) event. -/
inductive HookEvent
  | tick (t : Nat)
  | unmount (t : Nat)
deriving DecidableEq, Repr

/-- Times at which the hook fires a validation check, given whether its
interval timer is still registered. A `tick` fires a check only while the
timer is active; `unmount` runs the effect cleanup, which calls
`clearInterval` and deactivates the timer for good. -/
def runHook : Bool → List HookEvent → List Nat
  | _, [] => []
  | active, .tick t :: es => if active then t :: runHook active es else runHook active es
  | _, .unmount _ :: es => runHook false es

/-- The server-supplied error text the interceptor inspects on a 403:
`error.response?.data?.detail || error.response?.data?.error || ""`. -/
def errMsgOf (e : AxiosError) : String :=
  jsOrStr e.detail (jsOrStr e.errorField "")

/-- The interceptor's heuristic for a role/permission-related 403:
`errorMsg.includes("cannot") || errorMsg.includes("not") || errorMsg.includes("permission")`. -/
def roleHeuristic (m : String) : Bool :=
  strIncludes m "cannot" || strIncludes m "not" || strIncludes m "permission"

/-- The error handler of the axios response interceptor (`api.interceptors.response`
in `axios.js`): reads `wasLoggedIn` before any clear, handles 401 and the
heuristic 403, and always rejects the error to the caller. -/
def interceptorOnError (s : LocalStorage) (e : AxiosError) : LocalStorage × List Action :=
  let wasLoggedIn := jsTruthy (s.getItem .access)
  let step401 : LocalStorage × List Action :=
    if e.status = some 401 then
      (s.clear,
        [Action.clearStorage] ++
        (if wasLoggedIn then [Action.alert interceptorSessionEndedMsg] else []) ++
        [Action.setHref "/login"])
    else (s, [])
  let s1 := step401.1
  let step403 : LocalStorage × List Action :=
    if e.status = some 403 ∧ wasLoggedIn then
      if roleHeuristic (errMsgOf e) then
        (s1.clear,
          [Action.clearStorage, Action.alert permissionsChangedMsg,
           Action.setHref "/login"])
      else (s1, [])
    else (s1, [])
  (step403.1, step401.2 ++ step403.2 ++ [Action.rejectToCaller])

/-- The `res.data.user` object of a login / switch-tenant response. -/
structure UserInfo where
  username : Option String
  role : Option String
  email : Option String
deriving DecidableEq, Repr

/-- A tenant entry `{schema, name}` in a login response. -/
structure TenantInfo where
  schema : String
  name : Option String
deriving DecidableEq, Repr

/-- The body of a successful `auth/login/` or `auth/switch-tenant/` response. -/
structure LoginResponse where
  access : String
  refresh : String
  user : Option UserInfo
  tenant : Option TenantInfo
  tenants : Option (List TenantInfo)
deriving DecidableEq, Repr

/-- Rendering of one tenant entry by `JSON.stringify`. -/
def serializeTenant (t : TenantInfo) : String :=
  "\x7b\"schema\":\"" ++ t.schema ++ "\",\"name\":" ++
    (match t.name with
     | none => "null"
     | some n => "\"" ++ n ++ "\"") ++ "\x7d"

/-- Rendering by `JSON.stringify` of the tenant list stored under the `tenants` key. -/
def serializeTenants (ts : List TenantInfo) : String :=
  "[" ++ String.intercalate "," (ts.map serializeTenant) ++ "]"

/-- Result of `handleLogin` in `Login.js`: the storage afterwards, the
observable actions, and the component state it sets
(tenant options, saved login response, modal visibility). -/
structure LoginOutcome where
  storage : LocalStorage
  actions : List Action
  tenantOptions : List TenantInfo
  loginResponse : Option LoginResponse
  showModal : Bool

/-- Embeds `const tenant = res.data.tenant || (Array.isArray(res.data.tenants) && res.data.tenants[0])`
in `handleLogin` (an absent first element of `tenants` is falsy). -/
def derivedTenant (res : LoginResponse) : Option TenantInfo :=
  res.tenant <|> (res.tenants.bind List.head?)

/-- Embeds `const tenantsList = res.data.tenants || (tenant ? [tenant] : [])` in
`handleLogin` (a present `tenants` array is truthy even when empty). -/
def derivedTenantsList (res : LoginResponse) : List TenantInfo :=
  match res.tenants with
  | some l => l
  | none =>
    match derivedTenant res with
    | some t => [t]
    | none => []

/-- Embeds `handleLogin` in `Login.js`, given the current storage and the outcome of
the `auth/login/` call. On success it derives the default tenant and the
tenant list, always stores the first response's tokens and context, and either
opens the tenant-selection modal (more than one tenant) or navigates to
`/todos`. On failure it only sets the inline error message. -/
def handleLogin (s : LocalStorage) (result : Except AxiosError LoginResponse) :
    LoginOutcome :=
  match result with
  | .error e =>
    { storage := s
      actions := [Action.setError (jsOrStr e.errorField "Invalid username/email or password")]
      tenantOptions := []
      loginResponse := none
      showModal := false }
  | .ok res =>
    let tenant : Option TenantInfo := derivedTenant res
    let tenantsList : List TenantInfo := derivedTenantsList res
    let s1 := ((((((s.setItem .access res.access).setItem .refresh res.refresh).setItem
      .role (jsOrStr (res.user.bind UserInfo.role) "")).setItem
      .email (jsOrStr (res.user.bind UserInfo.email) "")).setItem
      .username (jsOrStr (res.user.bind UserInfo.username) "")).setItem
      .tenant (jsOrStr (tenant.map TenantInfo.schema) "")).setItem
      .tenants (serializeTenants tenantsList)
    if tenantsList.length > 1 then
      { storage := s1
        actions := [Action.showTenantModal true]
        tenantOptions := tenantsList
        loginResponse := some res
        showModal := true }
    else
      { storage := s1
        actions := [Action.navigate "/todos" false]
        tenantOptions := []
        loginResponse := none
        showModal := false }

/-- Embeds `handleTenantSelect` in `Login.js`, given the current storage, the login
response saved by `handleLogin`, the tenant the user clicked, and the outcome
of the `auth/switch-tenant/` call (consulted only when the call is issued).
Selecting the current tenant navigates directly; otherwise the switch call is
issued, and only a successful response overwrites the stored tokens, role and
tenant schema; on failure only the inline error message is set. -/
def handleTenantSelect (s : LocalStorage) (loginResponse : Option LoginResponse)
    (selectedTenant : TenantInfo)
    (switchResult : Except AxiosError LoginResponse) :
    LocalStorage × List Action :=
  let currentSchema : Option String :=
    (loginResponse.bind LoginResponse.tenant).map TenantInfo.schema
  if some selectedTenant.schema = currentSchema then
    (s, [Action.showTenantModal false, Action.navigate "/todos" false])
  else
    match switchResult with
    | .ok res =>
      let s1 := ((((s.setItem .access res.access).setItem .refresh res.refresh).setItem
        .role (jsOrStr (res.user.bind UserInfo.role) "")).setItem
        .username (jsOrStr (res.user.bind UserInfo.username) "")).setItem
        .tenant (jsOrStr ((res.tenant.map TenantInfo.schema)) "")
      (s1, [Action.showTenantModal false, Action.apiSwitchTenant selectedTenant.schema,
            Action.navigate "/todos" false])
    | .error _ =>
      (s, [Action.showTenantModal false, Action.apiSwitchTenant selectedTenant.schema,
           Action.setError "Failed to switch organisation. Please try again."])

/-- The fields written by the login write-block (`localStorage.setItem`
sequence in `handleLogin`): the store's `setSession` operation acts on these. -/
structure SessionFields where
  access : String
  refresh : String
  role : String
  email : String
  username : String
  tenant : String
  tenants : String
deriving DecidableEq, Repr

/-- The Tenant Context Store's `setSession`: the sequence of
`localStorage.setItem` writes performed on a successful login, one per field,
in source order. -/
def setSession (s : LocalStorage) (f : SessionFields) : LocalStorage :=
  ((((((s.setItem .access f.access).setItem .refresh f.refresh).setItem
    .role f.role).setItem .email f.email).setItem .username f.username).setItem
    .tenant f.tenant).setItem .tenants f.tenants

/-- A `customers/metrics/dashboard/` response as consumed by the poll loop
(only `last_updated` is consulted; `last_updated` may be absent). -/
structure MetricsData where
  last_updated : Option String
deriving DecidableEq, Repr

/-- The `maxAttempts` constant in `handleManualAggregation`. -/
def maxAttempts : Nat := 15

/-- What the poll loop has done by the time it stops: how many metrics fetches
it made in total, the metrics last stored by `setMetrics`, and the final value
of the `refreshing` flag. -/
structure PollResult where
  fetches : Nat
  finalMetrics : MetricsData
  refreshing : Bool
deriving Repr

/-- The `poll` closure of `handleManualAggregation`, unrolled: `resp m` is the
body of the `(m+1)`-th metrics fetch, `attempts` the current counter, `n` how
many fetches happened before this call. Each call fetches, stores the metrics,
and stops (clearing `refreshing`) when `last_updated` changed or
`attempts >= maxAttempts`; otherwise it increments `attempts` and re-schedules
itself. -/
def pollFrom (old : Option String) (resp : Nat → MetricsData)
    (attempts n : Nat) : PollResult :=
  let d := resp n
  if d.last_updated ≠ old ∨ attempts ≥ maxAttempts then
    { fetches := n + 1, finalMetrics := d, refreshing := false }
  else
    pollFrom old resp (attempts + 1) (n + 1)
termination_by maxAttempts + 1 - attempts
decreasing_by
  simp only [not_or, not_le, ne_eq, not_not] at *
  omega

/-- Body of a `customers/orchestration/aggregate-dashboard/` response. -/
structure TriggerResponse where
  status : String
deriving DecidableEq, Repr

/-- Observable outcome of `handleManualAggregation`. -/
structure AggregationOutcome where
  refreshing : Bool
  metricsFetches : Nat
  finalMetrics : Option MetricsData
  errorMsg : Option String
deriving Repr

/-- Embeds `handleManualAggregation` in `Dashboard.js`: triggers the aggregation;
on `status === "completed"` it re-fetches the metrics once; on any other
status it starts the poll loop with the currently stored `last_updated`;
on a trigger failure it sets the inline error and clears `refreshing`. -/
def handleManualAggregation (metrics : Option MetricsData)
    (trigger : Except AxiosError TriggerResponse)
    (resp : Nat → MetricsData) : AggregationOutcome :=
  match trigger with
  | .error e =>
    { refreshing := false
      metricsFetches := 0
      finalMetrics := metrics
      errorMsg := some (jsOrStr e.errorField "Failed to refresh metrics") }
  | .ok res =>
    if res.status = "completed" then
      { refreshing := false
        metricsFetches := 1
        finalMetrics := some (resp 0)
        errorMsg := none }
    else
      let oldLastUpdated : Option String := metrics.bind MetricsData.last_updated
      let r := pollFrom oldLastUpdated resp 0 0
      { refreshing := r.refreshing
        metricsFetches := r.fetches
        finalMetrics := some r.finalMetrics
        errorMsg := none }

/-! ## Theorems -/

/-- C6: after a `setSession` followed by a `clear`, every session-field read
(token, role, username, tenant schema, tenant list) returns the absent value —
no stale field survives the clear — and `clear` twice in succession is
observably identical to `clear` once. -/
theorem claim_C6_clear_erases_and_is_idempotent (s : LocalStorage) (f : SessionFields) :
    (getToken ((setSession s f).clear) = none ∧
     getRole ((setSession s f).clear) = none ∧
     getUsername ((setSession s f).clear) = none ∧
     getTenantSchema ((setSession s f).clear) = none ∧
     getTenantList ((setSession s f).clear) = none) ∧
    (∀ (s' : LocalStorage) (k : StorageKey),
      (s'.clear.clear).getItem k = (s'.clear).getItem k) :=
  ⟨⟨rfl, rfl, rfl, rfl, rfl⟩, fun _ _ => rfl⟩

/-- C10: when the membership-list call succeeds but the body is not a bare
JSON array (e.g. the paginated shape `{results: [...]}`), the validator makes
no membership or role comparison: the storage is unchanged and no action
(logout, notice, redirect) is performed. -/
theorem claim_C10_non_array_response_is_ignored (s : LocalStorage) (d : UsersData)
    (h : d.isBareArray = false) :
    validateSession s (Except.ok d) = (s, []) := by
  unfold validateSession
  cases ht : jsTruthy (s.getItem .access) <;> simp [ht, h]

/-- Witness for C10: a signed-in user who is absent from the `results` list of
a paginated response is still left untouched. -/
theorem claim_C10_witness :
    (UsersData.paginated [⟨1, "bob", "OWNER", "2024-01-01"⟩]).isBareArray = false ∧
    validateSession
      (((LocalStorage.empty.setItem .access "tok").setItem .username "alice").setItem
        .role "MEMBER")
      (Except.ok (UsersData.paginated [⟨1, "bob", "OWNER", "2024-01-01"⟩])) =
      ((((LocalStorage.empty.setItem .access "tok").setItem .username "alice").setItem
        .role "MEMBER"), []) :=
  ⟨rfl, claim_C10_non_array_response_is_ignored _ _ rfl⟩

/-- C5: on a 401 response the interceptor unconditionally clears the storage,
alerts that the session ended exactly when a session existed before the clear,
and in both cases navigates to `/login` (and rejects the error to the caller). -/
theorem claim_C5_401_clears_notifies_redirects (s : LocalStorage) (e : AxiosError)
    (h : e.status = some 401) :
    (interceptorOnError s e).1 = s.clear ∧
    (interceptorOnError s e).2 =
      [Action.clearStorage] ++
      (if jsTruthy (s.getItem .access) then [Action.alert interceptorSessionEndedMsg]
       else []) ++
      [Action.setHref "/login", Action.rejectToCaller] := by
  unfold interceptorOnError
  simp only [h]
  cases hw : jsTruthy (s.getItem .access) <;> simp [hw]

/-- Witness for C5 at a logged-in storage and a bare 401 error. -/
theorem claim_C5_witness :
    (AxiosError.mk (some 401) none none).status = some 401 ∧
    ((interceptorOnError (LocalStorage.empty.setItem .access "tok")
        (AxiosError.mk (some 401) none none)).1 =
      (LocalStorage.empty.setItem .access "tok").clear ∧
     (interceptorOnError (LocalStorage.empty.setItem .access "tok")
        (AxiosError.mk (some 401) none none)).2 =
      [Action.clearStorage] ++
      (if jsTruthy ((LocalStorage.empty.setItem .access "tok").getItem .access) then
        [Action.alert interceptorSessionEndedMsg]
       else []) ++
      [Action.setHref "/login", Action.rejectToCaller]) :=
  ⟨rfl, claim_C5_401_clears_notifies_redirects _ _ rfl⟩

/-- C4: on a 403 received while a session existed, the interceptor clears,
alerts and redirects exactly when the server-supplied error text matches the
role/permission heuristic (contains "cannot", "not" or "permission");
otherwise the storage is untouched and the error is only rejected back to the
caller (surfaced inline). -/
theorem claim_C4_403_heuristic_iff (s : LocalStorage) (e : AxiosError)
    (h403 : e.status = some 403) (hw : jsTruthy (s.getItem .access) = true) :
    (roleHeuristic (errMsgOf e) = true →
      (interceptorOnError s e).1 = s.clear ∧
      (interceptorOnError s e).2 =
        [Action.clearStorage, Action.alert permissionsChangedMsg,
         Action.setHref "/login", Action.rejectToCaller]) ∧
    (roleHeuristic (errMsgOf e) = false →
      (interceptorOnError s e).1 = s ∧
      (interceptorOnError s e).2 = [Action.rejectToCaller]) := by
  unfold interceptorOnError
  simp only [h403, hw]
  constructor <;> intro hh <;> simp [hh]

/-- Witness for C4: a logged-in storage and a 403 whose detail text contains
"cannot". -/
theorem claim_C4_witness :
    (AxiosError.mk (some 403) (some "You cannot delete todos") none).status = some 403 ∧
    jsTruthy ((LocalStorage.empty.setItem .access "tok").getItem .access) = true ∧
    ((roleHeuristic (errMsgOf (AxiosError.mk (some 403) (some "You cannot delete todos") none)) = true →
      (interceptorOnError (LocalStorage.empty.setItem .access "tok")
          (AxiosError.mk (some 403) (some "You cannot delete todos") none)).1 =
        (LocalStorage.empty.setItem .access "tok").clear ∧
      (interceptorOnError (LocalStorage.empty.setItem .access "tok")
          (AxiosError.mk (some 403) (some "You cannot delete todos") none)).2 =
        [Action.clearStorage, Action.alert permissionsChangedMsg,
         Action.setHref "/login", Action.rejectToCaller]) ∧
     (roleHeuristic (errMsgOf (AxiosError.mk (some 403) (some "You cannot delete todos") none)) = false →
      (interceptorOnError (LocalStorage.empty.setItem .access "tok")
          (AxiosError.mk (some 403) (some "You cannot delete todos") none)).1 =
        LocalStorage.empty.setItem .access "tok" ∧
      (interceptorOnError (LocalStorage.empty.setItem .access "tok")
          (AxiosError.mk (some 403) (some "You cannot delete todos") none)).2 =
        [Action.rejectToCaller])) :=
  ⟨rfl, rfl, claim_C4_403_heuristic_iff _ _ rfl rfl⟩

/-- C7: when the validator's membership call itself fails, a 401 or 403
status forces clear + notice + redirect, while any other failure (network
error, 5xx) leaves the storage untouched with no action at all; in no case
does the validator cancel its own interval timer, so the next scheduled check
proceeds. -/
theorem claim_C7_validator_failure_paths (s : LocalStorage) (e : AxiosError)
    (ht : jsTruthy (s.getItem .access) = true) :
    ((e.status = some 401 ∨ e.status = some 403) →
      validateSession s (Except.error e) =
        (s.clear,
         [Action.clearStorage, Action.alert validatorSessionEndedMsg,
          Action.navigate "/login" true])) ∧
    (¬(e.status = some 401 ∨ e.status = some 403) →
      validateSession s (Except.error e) = (s, [])) ∧
    Action.cancelTimer ∉ (validateSession s (Except.error e)).2 := by
  refine ⟨fun hc => ?_, fun hc => ?_, ?_⟩
  · simp [validateSession, ht, hc]
  · simp [validateSession, ht, hc]
  · by_cases hc : e.status = some 401 ∨ e.status = some 403 <;>
      simp [validateSession, ht, hc]

/-- Witness for C7 at a logged-in storage and a 500-status failure. -/
theorem claim_C7_witness :
    jsTruthy ((LocalStorage.empty.setItem .access "tok").getItem .access) = true ∧
    ((((AxiosError.mk (some 500) none none).status = some 401 ∨
       (AxiosError.mk (some 500) none none).status = some 403) →
      validateSession (LocalStorage.empty.setItem .access "tok")
          (Except.error (AxiosError.mk (some 500) none none)) =
        ((LocalStorage.empty.setItem .access "tok").clear,
         [Action.clearStorage, Action.alert validatorSessionEndedMsg,
          Action.navigate "/login" true])) ∧
     (¬((AxiosError.mk (some 500) none none).status = some 401 ∨
        (AxiosError.mk (some 500) none none).status = some 403) →
      validateSession (LocalStorage.empty.setItem .access "tok")
          (Except.error (AxiosError.mk (some 500) none none)) =
        (LocalStorage.empty.setItem .access "tok", [])) ∧
     Action.cancelTimer ∉
       (validateSession (LocalStorage.empty.setItem .access "tok")
          (Except.error (AxiosError.mk (some 500) none none))).2) :=
  ⟨rfl, claim_C7_validator_failure_paths _ _ rfl⟩

/-- C2: when the membership list's entry found for the stored username has a
role different from the stored role, the validator clears the storage, alerts
with the old and the new role, and redirects to `/login`; afterwards
`getRole` reads back absent, not the stale role. -/
theorem claim_C2_role_drift_forces_logout (s : LocalStorage)
    (users : List TenantUser) (u : TenantUser)
    (ht : jsTruthy (s.getItem .access) = true)
    (hfind : users.find? (fun v => s.getItem .username = some v.username) = some u)
    (hrole : s.getItem .role ≠ some u.role) :
    validateSession s (Except.ok (UsersData.arr users)) =
      (s.clear,
       [Action.clearStorage,
        Action.alert (roleChangedMsg (s.getItem .role) u.role),
        Action.navigate "/login" true]) ∧
    getRole (validateSession s (Except.ok (UsersData.arr users))).1 = none := by
  have h1 : validateSession s (Except.ok (UsersData.arr users)) =
      (s.clear,
       [Action.clearStorage,
        Action.alert (roleChangedMsg (s.getItem .role) u.role),
        Action.navigate "/login" true]) := by
    unfold validateSession
    simp only [ht, UsersData.isBareArray]
    rw [hfind]
    simp [hrole]
  exact ⟨h1, by rw [h1]; rfl⟩

/-- Witness for C2: stored role MEMBER, server reports OWNER. -/
theorem claim_C2_witness :
    jsTruthy (((((LocalStorage.empty.setItem .access "tok").setItem
        .username "alice").setItem .role "MEMBER")).getItem .access) = true ∧
    [TenantUser.mk 1 "alice" "OWNER" "2024-01-01"].find?
      (fun v =>
        ((((LocalStorage.empty.setItem .access "tok").setItem
          .username "alice").setItem .role "MEMBER")).getItem .username = some v.username) =
      some (TenantUser.mk 1 "alice" "OWNER" "2024-01-01") ∧
    ((((LocalStorage.empty.setItem .access "tok").setItem
        .username "alice").setItem .role "MEMBER")).getItem .role ≠ some "OWNER" ∧
    (validateSession
        ((((LocalStorage.empty.setItem .access "tok").setItem
          .username "alice").setItem .role "MEMBER"))
        (Except.ok (UsersData.arr [TenantUser.mk 1 "alice" "OWNER" "2024-01-01"])) =
      (((((LocalStorage.empty.setItem .access "tok").setItem
          .username "alice").setItem .role "MEMBER")).clear,
       [Action.clearStorage,
        Action.alert (roleChangedMsg
          (((((LocalStorage.empty.setItem .access "tok").setItem
            .username "alice").setItem .role "MEMBER")).getItem .role) "OWNER"),
        Action.navigate "/login" true]) ∧
     getRole (validateSession
        ((((LocalStorage.empty.setItem .access "tok").setItem
          .username "alice").setItem .role "MEMBER"))
        (Except.ok (UsersData.arr [TenantUser.mk 1 "alice" "OWNER" "2024-01-01"]))).1 = none) :=
  ⟨rfl, by decide, by decide,
   claim_C2_role_drift_forces_logout
     ((((LocalStorage.empty.setItem .access "tok").setItem
       .username "alice").setItem .role "MEMBER"))
     [TenantUser.mk 1 "alice" "OWNER" "2024-01-01"]
     (TenantUser.mk 1 "alice" "OWNER" "2024-01-01")
     rfl (by decide) (by decide)⟩

/-- C3: a failed tenant-switch call leaves every stored session field exactly
as it was before the switch (all-or-nothing, no partial overwrite) and sets
the retryable inline error message. -/
theorem claim_C3_failed_switch_is_all_or_nothing (s : LocalStorage)
    (lr : Option LoginResponse) (t : TenantInfo) (e : AxiosError)
    (hneq : ¬ some t.schema = (lr.bind LoginResponse.tenant).map TenantInfo.schema) :
    (handleTenantSelect s lr t (Except.error e)).1 = s ∧
    (∀ k, ((handleTenantSelect s lr t (Except.error e)).1).getItem k = s.getItem k) ∧
    getTenantSchema (handleTenantSelect s lr t (Except.error e)).1 = getTenantSchema s ∧
    getRole (handleTenantSelect s lr t (Except.error e)).1 = getRole s ∧
    getToken (handleTenantSelect s lr t (Except.error e)).1 = getToken s ∧
    (handleTenantSelect s lr t (Except.error e)).2 =
      [Action.showTenantModal false, Action.apiSwitchTenant t.schema,
       Action.setError "Failed to switch organisation. Please try again."] := by
  have h1 : handleTenantSelect s lr t (Except.error e) =
      (s, [Action.showTenantModal false, Action.apiSwitchTenant t.schema,
           Action.setError "Failed to switch organisation. Please try again."]) := by
    unfold handleTenantSelect
    rw [if_neg hneq]
  rw [h1]
  exact ⟨rfl, fun _ => rfl, rfl, rfl, rfl, rfl⟩

/-- Witness for C3: switching from tenant `alpha` to tenant `beta` when the
switch call fails with a 500. -/
theorem claim_C3_witness :
    ¬ some (TenantInfo.mk "beta" none).schema =
      ((some (LoginResponse.mk "a" "r" none (some (TenantInfo.mk "alpha" none)) none)).bind
        LoginResponse.tenant).map TenantInfo.schema ∧
    ((handleTenantSelect
        ((LocalStorage.empty.setItem .access "tokA").setItem .role "OWNER")
        (some (LoginResponse.mk "a" "r" none (some (TenantInfo.mk "alpha" none)) none))
        (TenantInfo.mk "beta" none)
        (Except.error (AxiosError.mk (some 500) none none))).1 =
      ((LocalStorage.empty.setItem .access "tokA").setItem .role "OWNER") ∧
     (∀ k, (((handleTenantSelect
        ((LocalStorage.empty.setItem .access "tokA").setItem .role "OWNER")
        (some (LoginResponse.mk "a" "r" none (some (TenantInfo.mk "alpha" none)) none))
        (TenantInfo.mk "beta" none)
        (Except.error (AxiosError.mk (some 500) none none))).1)).getItem k =
        (((LocalStorage.empty.setItem .access "tokA").setItem .role "OWNER")).getItem k) ∧
     getTenantSchema (handleTenantSelect
        ((LocalStorage.empty.setItem .access "tokA").setItem .role "OWNER")
        (some (LoginResponse.mk "a" "r" none (some (TenantInfo.mk "alpha" none)) none))
        (TenantInfo.mk "beta" none)
        (Except.error (AxiosError.mk (some 500) none none))).1 =
       getTenantSchema ((LocalStorage.empty.setItem .access "tokA").setItem .role "OWNER") ∧
     getRole (handleTenantSelect
        ((LocalStorage.empty.setItem .access "tokA").setItem .role "OWNER")
        (some (LoginResponse.mk "a" "r" none (some (TenantInfo.mk "alpha" none)) none))
        (TenantInfo.mk "beta" none)
        (Except.error (AxiosError.mk (some 500) none none))).1 =
       getRole ((LocalStorage.empty.setItem .access "tokA").setItem .role "OWNER") ∧
     getToken (handleTenantSelect
        ((LocalStorage.empty.setItem .access "tokA").setItem .role "OWNER")
        (some (LoginResponse.mk "a" "r" none (some (TenantInfo.mk "alpha" none)) none))
        (TenantInfo.mk "beta" none)
        (Except.error (AxiosError.mk (some 500) none none))).1 =
       getToken ((LocalStorage.empty.setItem .access "tokA").setItem .role "OWNER") ∧
     (handleTenantSelect
        ((LocalStorage.empty.setItem .access "tokA").setItem .role "OWNER")
        (some (LoginResponse.mk "a" "r" none (some (TenantInfo.mk "alpha" none)) none))
        (TenantInfo.mk "beta" none)
        (Except.error (AxiosError.mk (some 500) none none))).2 =
      [Action.showTenantModal false,
       Action.apiSwitchTenant (TenantInfo.mk "beta" none).schema,
       Action.setError "Failed to switch organisation. Please try again."]) :=
  ⟨by decide, claim_C3_failed_switch_is_all_or_nothing _ _ _ _ (by decide)⟩

/-- Once the interval timer has been cleared, no tick ever fires a check. -/
theorem runHook_inactive (es : List HookEvent) : runHook false es = [] := by
  induction es with
  | nil => rfl
  | cons e es ih =>
    cases e with
    | tick t => simp [runHook, ih]
    | unmount t => simpa [runHook] using ih

/-- Events after the unmount (cleanup) event contribute no check firings. -/
theorem runHook_unmount_prefix (b : Bool) (pre post : List HookEvent) (u : Nat) :
    runHook b (pre ++ HookEvent.unmount u :: post) = runHook b pre := by
  induction pre generalizing b with
  | nil => simp [runHook, runHook_inactive]
  | cons e es ih =>
    cases e with
    | tick t => cases b <;> simp [runHook, ih]
    | unmount t => simp [runHook, ih]

/-- C1: when the membership list contains no entry whose username equals the
stored one, one check cycle of the validator performs exactly one clear, one
notice and one redirect (in that order, and nothing else); and after the
hosting view's teardown (the `unmount` cleanup, which clears the interval)
no further validation check ever fires. -/
theorem claim_C1_removed_user_single_logout_and_teardown (s : LocalStorage)
    (users : List TenantUser)
    (ht : jsTruthy (s.getItem .access) = true)
    (habs : ∀ u ∈ users, ¬ s.getItem .username = some u.username) :
    (validateSession s (Except.ok (UsersData.arr users)) =
      (s.clear,
       [Action.clearStorage, Action.alert removedMsg, Action.navigate "/login" true]) ∧
     (validateSession s (Except.ok (UsersData.arr users))).2.count Action.clearStorage = 1 ∧
     (validateSession s (Except.ok (UsersData.arr users))).2.count
       (Action.alert removedMsg) = 1 ∧
     (validateSession s (Except.ok (UsersData.arr users))).2.count
       (Action.navigate "/login" true) = 1) ∧
    (∀ (pre post : List HookEvent) (u : Nat),
      runHook true (pre ++ HookEvent.unmount u :: post) = runHook true pre) := by
  have hfind : users.find? (fun v => s.getItem .username = some v.username) = none := by
    rw [List.find?_eq_none]
    intro x hx
    simp only [decide_eq_true_eq]
    exact habs x hx
  have h1 : validateSession s (Except.ok (UsersData.arr users)) =
      (s.clear,
       [Action.clearStorage, Action.alert removedMsg, Action.navigate "/login" true]) := by
    unfold validateSession
    simp only [ht, UsersData.isBareArray]
    rw [hfind]
    simp
  refine ⟨⟨h1, ?_, ?_, ?_⟩, fun pre post u => runHook_unmount_prefix true pre post u⟩ <;>
    rw [h1] <;> rfl

/-- Witness for C1: stored username `alice`, membership list containing only
`bob`. -/
theorem claim_C1_witness :
    jsTruthy ((((LocalStorage.empty.setItem .access "tok").setItem
      .username "alice").setItem .role "MEMBER").getItem .access) = true ∧
    (∀ u ∈ [TenantUser.mk 1 "bob" "OWNER" "2024-01-01"],
      ¬ (((LocalStorage.empty.setItem .access "tok").setItem
        .username "alice").setItem .role "MEMBER").getItem .username = some u.username) ∧
    ((validateSession
        (((LocalStorage.empty.setItem .access "tok").setItem
          .username "alice").setItem .role "MEMBER")
        (Except.ok (UsersData.arr [TenantUser.mk 1 "bob" "OWNER" "2024-01-01"])) =
      ((((LocalStorage.empty.setItem .access "tok").setItem
        .username "alice").setItem .role "MEMBER").clear,
       [Action.clearStorage, Action.alert removedMsg, Action.navigate "/login" true]) ∧
     (validateSession
        (((LocalStorage.empty.setItem .access "tok").setItem
          .username "alice").setItem .role "MEMBER")
        (Except.ok (UsersData.arr [TenantUser.mk 1 "bob" "OWNER" "2024-01-01"]))).2.count
       Action.clearStorage = 1 ∧
     (validateSession
        (((LocalStorage.empty.setItem .access "tok").setItem
          .username "alice").setItem .role "MEMBER")
        (Except.ok (UsersData.arr [TenantUser.mk 1 "bob" "OWNER" "2024-01-01"]))).2.count
       (Action.alert removedMsg) = 1 ∧
     (validateSession
        (((LocalStorage.empty.setItem .access "tok").setItem
          .username "alice").setItem .role "MEMBER")
        (Except.ok (UsersData.arr [TenantUser.mk 1 "bob" "OWNER" "2024-01-01"]))).2.count
       (Action.navigate "/login" true) = 1) ∧
    (∀ (pre post : List HookEvent) (u : Nat),
      runHook true (pre ++ HookEvent.unmount u :: post) = runHook true pre)) :=
  ⟨rfl, by decide,
   claim_C1_removed_user_single_logout_and_teardown
     (((LocalStorage.empty.setItem .access "tok").setItem
       .username "alice").setItem .role "MEMBER")
     [TenantUser.mk 1 "bob" "OWNER" "2024-01-01"]
     rfl (by decide)⟩

/-- C8: when the login response carries more than one candidate tenant,
`handleLogin` opens the tenant-selection modal and does not navigate anywhere,
while the first response's tokens are already stored; selecting a tenant other
than the current one issues the switch-tenant call, and the stored role and
tenant schema take the switch response's values on success while a failed
switch leaves the storage exactly as after login. -/
theorem claim_C8_multi_tenant_selection_flow (s : LocalStorage) (res : LoginResponse)
    (hmulti : (derivedTenantsList res).length > 1) :
    (handleLogin s (Except.ok res)).showModal = true ∧
    (handleLogin s (Except.ok res)).actions = [Action.showTenantModal true] ∧
    (∀ p b, Action.navigate p b ∉ (handleLogin s (Except.ok res)).actions) ∧
    (handleLogin s (Except.ok res)).loginResponse = some res ∧
    (handleLogin s (Except.ok res)).storage.getItem .access = some res.access ∧
    (handleLogin s (Except.ok res)).storage.getItem .refresh = some res.refresh ∧
    (∀ (t : TenantInfo) (swres : LoginResponse) (e : AxiosError),
      ¬ some t.schema = res.tenant.map TenantInfo.schema →
      (Action.apiSwitchTenant t.schema ∈
         (handleTenantSelect (handleLogin s (Except.ok res)).storage (some res) t
           (Except.ok swres)).2 ∧
       (handleTenantSelect (handleLogin s (Except.ok res)).storage (some res) t
           (Except.ok swres)).1.getItem .role =
         some (jsOrStr (swres.user.bind UserInfo.role) "") ∧
       (handleTenantSelect (handleLogin s (Except.ok res)).storage (some res) t
           (Except.ok swres)).1.getItem .tenant =
         some (jsOrStr (swres.tenant.map TenantInfo.schema) "") ∧
       Action.apiSwitchTenant t.schema ∈
         (handleTenantSelect (handleLogin s (Except.ok res)).storage (some res) t
           (Except.error e)).2 ∧
       (handleTenantSelect (handleLogin s (Except.ok res)).storage (some res) t
           (Except.error e)).1 = (handleLogin s (Except.ok res)).storage)) := by
  have hout : handleLogin s (Except.ok res) =
      { storage := ((((((s.setItem .access res.access).setItem .refresh res.refresh).setItem
          .role (jsOrStr (res.user.bind UserInfo.role) "")).setItem
          .email (jsOrStr (res.user.bind UserInfo.email) "")).setItem
          .username (jsOrStr (res.user.bind UserInfo.username) "")).setItem
          .tenant (jsOrStr ((derivedTenant res).map TenantInfo.schema) "")).setItem
          .tenants (serializeTenants (derivedTenantsList res))
        actions := [Action.showTenantModal true]
        tenantOptions := derivedTenantsList res
        loginResponse := some res
        showModal := true } := by
    simp only [handleLogin]
    rw [if_pos hmulti]
  refine ⟨?_, ?_, ?_, ?_, ?_, ?_, ?_⟩
  · rw [hout]
  · rw [hout]
  · intro p b
    rw [hout]
    simp
  · rw [hout]
  · rw [hout]
    rfl
  · rw [hout]
    rfl
  · intro t swres e hne
    have hsel : ∀ (r : Except AxiosError LoginResponse),
        handleTenantSelect (handleLogin s (Except.ok res)).storage (some res) t r =
          (match r with
           | .ok sw =>
             ((((((handleLogin s (Except.ok res)).storage.setItem .access sw.access).setItem
               .refresh sw.refresh).setItem
               .role (jsOrStr (sw.user.bind UserInfo.role) "")).setItem
               .username (jsOrStr (sw.user.bind UserInfo.username) "")).setItem
               .tenant (jsOrStr ((sw.tenant.map TenantInfo.schema)) ""),
              [Action.showTenantModal false, Action.apiSwitchTenant t.schema,
               Action.navigate "/todos" false])
           | .error _ =>
             ((handleLogin s (Except.ok res)).storage,
              [Action.showTenantModal false, Action.apiSwitchTenant t.schema,
               Action.setError "Failed to switch organisation. Please try again."])) := by
      intro r
      simp only [handleTenantSelect, Option.some_bind]
      rw [if_neg hne]
    refine ⟨?_, ?_, ?_, ?_, ?_⟩
    · rw [hsel (Except.ok swres)]
      simp
    · rw [hsel (Except.ok swres)]
      rfl
    · rw [hsel (Except.ok swres)]
      rfl
    · rw [hsel (Except.error e)]
      simp
    · rw [hsel (Except.error e)]

/-- Witness for C8: a login response with two tenants `alpha` (current) and
`beta`, selecting `beta`, with a successful switch response and a 500 failure. -/
theorem claim_C8_witness :
    (derivedTenantsList (LoginResponse.mk "acc" "ref"
      (some (UserInfo.mk (some "alice") (some "OWNER") none))
      (some (TenantInfo.mk "alpha" none))
      (some [TenantInfo.mk "alpha" none, TenantInfo.mk "beta" none]))).length > 1 ∧
    ((handleLogin LocalStorage.empty (Except.ok (LoginResponse.mk "acc" "ref"
      (some (UserInfo.mk (some "alice") (some "OWNER") none))
      (some (TenantInfo.mk "alpha" none))
      (some [TenantInfo.mk "alpha" none, TenantInfo.mk "beta" none])))).showModal = true ∧
     (handleLogin LocalStorage.empty (Except.ok (LoginResponse.mk "acc" "ref"
      (some (UserInfo.mk (some "alice") (some "OWNER") none))
      (some (TenantInfo.mk "alpha" none))
      (some [TenantInfo.mk "alpha" none, TenantInfo.mk "beta" none])))).actions =
       [Action.showTenantModal true] ∧
     (∀ p b, Action.navigate p b ∉
       (handleLogin LocalStorage.empty (Except.ok (LoginResponse.mk "acc" "ref"
         (some (UserInfo.mk (some "alice") (some "OWNER") none))
         (some (TenantInfo.mk "alpha" none))
         (some [TenantInfo.mk "alpha" none, TenantInfo.mk "beta" none])))).actions) ∧
     (handleLogin LocalStorage.empty (Except.ok (LoginResponse.mk "acc" "ref"
      (some (UserInfo.mk (some "alice") (some "OWNER") none))
      (some (TenantInfo.mk "alpha" none))
      (some [TenantInfo.mk "alpha" none, TenantInfo.mk "beta" none])))).loginResponse =
       some (LoginResponse.mk "acc" "ref"
         (some (UserInfo.mk (some "alice") (some "OWNER") none))
         (some (TenantInfo.mk "alpha" none))
         (some [TenantInfo.mk "alpha" none, TenantInfo.mk "beta" none])) ∧
     (handleLogin LocalStorage.empty (Except.ok (LoginResponse.mk "acc" "ref"
      (some (UserInfo.mk (some "alice") (some "OWNER") none))
      (some (TenantInfo.mk "alpha" none))
      (some [TenantInfo.mk "alpha" none, TenantInfo.mk "beta" none])))).storage.getItem
       .access = some (LoginResponse.mk "acc" "ref"
         (some (UserInfo.mk (some "alice") (some "OWNER") none))
         (some (TenantInfo.mk "alpha" none))
         (some [TenantInfo.mk "alpha" none, TenantInfo.mk "beta" none])).access ∧
     (handleLogin LocalStorage.empty (Except.ok (LoginResponse.mk "acc" "ref"
      (some (UserInfo.mk (some "alice") (some "OWNER") none))
      (some (TenantInfo.mk "alpha" none))
      (some [TenantInfo.mk "alpha" none, TenantInfo.mk "beta" none])))).storage.getItem
       .refresh = some (LoginResponse.mk "acc" "ref"
         (some (UserInfo.mk (some "alice") (some "OWNER") none))
         (some (TenantInfo.mk "alpha" none))
         (some [TenantInfo.mk "alpha" none, TenantInfo.mk "beta" none])).refresh ∧
     (∀ (t : TenantInfo) (swres : LoginResponse) (e : AxiosError),
      ¬ some t.schema = (LoginResponse.mk "acc" "ref"
         (some (UserInfo.mk (some "alice") (some "OWNER") none))
         (some (TenantInfo.mk "alpha" none))
         (some [TenantInfo.mk "alpha" none, TenantInfo.mk "beta" none])).tenant.map
           TenantInfo.schema →
      (Action.apiSwitchTenant t.schema ∈
         (handleTenantSelect (handleLogin LocalStorage.empty (Except.ok (LoginResponse.mk
             "acc" "ref" (some (UserInfo.mk (some "alice") (some "OWNER") none))
             (some (TenantInfo.mk "alpha" none))
             (some [TenantInfo.mk "alpha" none, TenantInfo.mk "beta" none])))).storage
           (some (LoginResponse.mk "acc" "ref"
             (some (UserInfo.mk (some "alice") (some "OWNER") none))
             (some (TenantInfo.mk "alpha" none))
             (some [TenantInfo.mk "alpha" none, TenantInfo.mk "beta" none]))) t
           (Except.ok swres)).2 ∧
       (handleTenantSelect (handleLogin LocalStorage.empty (Except.ok (LoginResponse.mk
             "acc" "ref" (some (UserInfo.mk (some "alice") (some "OWNER") none))
             (some (TenantInfo.mk "alpha" none))
             (some [TenantInfo.mk "alpha" none, TenantInfo.mk "beta" none])))).storage
           (some (LoginResponse.mk "acc" "ref"
             (some (UserInfo.mk (some "alice") (some "OWNER") none))
             (some (TenantInfo.mk "alpha" none))
             (some [TenantInfo.mk "alpha" none, TenantInfo.mk "beta" none]))) t
           (Except.ok swres)).1.getItem .role =
         some (jsOrStr (swres.user.bind UserInfo.role) "") ∧
       (handleTenantSelect (handleLogin LocalStorage.empty (Except.ok (LoginResponse.mk
             "acc" "ref" (some (UserInfo.mk (some "alice") (some "OWNER") none))
             (some (TenantInfo.mk "alpha" none))
             (some [TenantInfo.mk "alpha" none, TenantInfo.mk "beta" none])))).storage
           (some (LoginResponse.mk "acc" "ref"
             (some (UserInfo.mk (some "alice") (some "OWNER") none))
             (some (TenantInfo.mk "alpha" none))
             (some [TenantInfo.mk "alpha" none, TenantInfo.mk "beta" none]))) t
           (Except.ok swres)).1.getItem .tenant =
         some (jsOrStr (swres.tenant.map TenantInfo.schema) "") ∧
       Action.apiSwitchTenant t.schema ∈
         (handleTenantSelect (handleLogin LocalStorage.empty (Except.ok (LoginResponse.mk
             "acc" "ref" (some (UserInfo.mk (some "alice") (some "OWNER") none))
             (some (TenantInfo.mk "alpha" none))
             (some [TenantInfo.mk "alpha" none, TenantInfo.mk "beta" none])))).storage
           (some (LoginResponse.mk "acc" "ref"
             (some (UserInfo.mk (some "alice") (some "OWNER") none))
             (some (TenantInfo.mk "alpha" none))
             (some [TenantInfo.mk "alpha" none, TenantInfo.mk "beta" none]))) t
           (Except.error e)).2 ∧
       (handleTenantSelect (handleLogin LocalStorage.empty (Except.ok (LoginResponse.mk
             "acc" "ref" (some (UserInfo.mk (some "alice") (some "OWNER") none))
             (some (TenantInfo.mk "alpha" none))
             (some [TenantInfo.mk "alpha" none, TenantInfo.mk "beta" none])))).storage
           (some (LoginResponse.mk "acc" "ref"
             (some (UserInfo.mk (some "alice") (some "OWNER") none))
             (some (TenantInfo.mk "alpha" none))
             (some [TenantInfo.mk "alpha" none, TenantInfo.mk "beta" none]))) t
           (Except.error e)).1 =
         (handleLogin LocalStorage.empty (Except.ok (LoginResponse.mk "acc" "ref"
           (some (UserInfo.mk (some "alice") (some "OWNER") none))
           (some (TenantInfo.mk "alpha" none))
           (some [TenantInfo.mk "alpha" none, TenantInfo.mk "beta" none])))).storage))) :=
  ⟨by decide,
   claim_C8_multi_tenant_selection_flow LocalStorage.empty
     (LoginResponse.mk "acc" "ref"
       (some (UserInfo.mk (some "alice") (some "OWNER") none))
       (some (TenantInfo.mk "alpha" none))
       (some [TenantInfo.mk "alpha" none, TenantInfo.mk "beta" none]))
     (by decide)⟩

/-- One-step unfolding of the poll loop. -/
theorem pollFrom_eq (old : Option String) (resp : Nat → MetricsData) (a n : Nat) :
    pollFrom old resp a n =
      if (resp n).last_updated ≠ old ∨ a ≥ maxAttempts then
        { fetches := n + 1, finalMetrics := resp n, refreshing := false }
      else pollFrom old resp (a + 1) (n + 1) := by
  rw [pollFrom]

/-- The poll loop always terminates with the `refreshing` flag cleared. -/
theorem pollFrom_refreshing (old : Option String) (resp : Nat → MetricsData) :
    ∀ (k a n : Nat), maxAttempts + 1 - a ≤ k →
      (pollFrom old resp a n).refreshing = false := by
  intro k
  induction k with
  | zero =>
    intro a n h
    have ha : maxAttempts ≤ a := by omega
    rw [pollFrom_eq, if_pos (Or.inr ha)]
  | succ k ih =>
    intro a n h
    rw [pollFrom_eq]
    by_cases hc : (resp n).last_updated ≠ old ∨ a ≥ maxAttempts
    · rw [if_pos hc]
    · rw [if_neg hc]
      have ha : a < maxAttempts := by
        rcases not_or.mp hc with ⟨-, h2⟩
        omega
      exact ih (a + 1) (n + 1) (by omega)

/-- The poll loop performs at most `maxAttempts - attempts` re-scheduled
fetches on top of the current one. -/
theorem pollFrom_fetches_le (old : Option String) (resp : Nat → MetricsData) :
    ∀ (k a n : Nat), maxAttempts + 1 - a ≤ k →
      (pollFrom old resp a n).fetches ≤ n + 1 + (maxAttempts - a) := by
  intro k
  induction k with
  | zero =>
    intro a n h
    have ha : maxAttempts ≤ a := by omega
    rw [pollFrom_eq, if_pos (Or.inr ha)]
    show n + 1 ≤ n + 1 + (maxAttempts - a)
    omega
  | succ k ih =>
    intro a n h
    rw [pollFrom_eq]
    by_cases hc : (resp n).last_updated ≠ old ∨ a ≥ maxAttempts
    · rw [if_pos hc]
      show n + 1 ≤ n + 1 + (maxAttempts - a)
      omega
    · rw [if_neg hc]
      have ha : a < maxAttempts := by
        rcases not_or.mp hc with ⟨-, h2⟩
        omega
      have hb := ih (a + 1) (n + 1) (by omega)
      omega

/-- When no response ever changes `last_updated`, the poll loop exhausts its
attempt budget exactly. -/
theorem pollFrom_unchanged (old : Option String) (resp : Nat → MetricsData)
    (hall : ∀ m, (resp m).last_updated = old) :
    ∀ (k a n : Nat), maxAttempts + 1 - a ≤ k → a ≤ maxAttempts →
      (pollFrom old resp a n).fetches = n + 1 + (maxAttempts - a) := by
  intro k
  induction k with
  | zero =>
    intro a n h ha
    omega
  | succ k ih =>
    intro a n h ha
    by_cases haa : maxAttempts ≤ a
    · rw [pollFrom_eq, if_pos (Or.inr haa)]
      show n + 1 = n + 1 + (maxAttempts - a)
      omega
    · have ha' : a < maxAttempts := by omega
      rw [pollFrom_eq,
        if_neg (not_or.mpr ⟨not_not_intro (hall n), by omega⟩)]
      have hb := ih (a + 1) (n + 1) (by omega) (by omega)
      rw [hb]
      omega

/-- C9: after a trigger response with status `"pending"` while the stored
metrics carry `last_updated = T0`, the client polls the metrics endpoint
until a response carries a different `last_updated` or the attempt counter
reaches its bound of 15, and in both cases stops with the refreshing
indicator off and no error surfaced: at most `maxAttempts + 1` fetches ever
happen, a first changed response stops it immediately, and responses that
never change exhaust exactly the budget. -/
theorem claim_C9_pending_poll_stops (T0 : String) (metrics : MetricsData)
    (resp : Nat → MetricsData) (hm : metrics.last_updated = some T0) :
    (handleManualAggregation (some metrics)
      (Except.ok (TriggerResponse.mk "pending")) resp).refreshing = false ∧
    (handleManualAggregation (some metrics)
      (Except.ok (TriggerResponse.mk "pending")) resp).errorMsg = none ∧
    (handleManualAggregation (some metrics)
      (Except.ok (TriggerResponse.mk "pending")) resp).metricsFetches ≤ maxAttempts + 1 ∧
    ((resp 0).last_updated ≠ some T0 →
      (handleManualAggregation (some metrics)
        (Except.ok (TriggerResponse.mk "pending")) resp).metricsFetches = 1) ∧
    ((∀ m, (resp m).last_updated = some T0) →
      (handleManualAggregation (some metrics)
        (Except.ok (TriggerResponse.mk "pending")) resp).metricsFetches =
        maxAttempts + 1) := by
  have hagg : handleManualAggregation (some metrics)
      (Except.ok (TriggerResponse.mk "pending")) resp =
      { refreshing := (pollFrom metrics.last_updated resp 0 0).refreshing
        metricsFetches := (pollFrom metrics.last_updated resp 0 0).fetches
        finalMetrics := some (pollFrom metrics.last_updated resp 0 0).finalMetrics
        errorMsg := none } := by
    simp only [handleManualAggregation, Option.some_bind]
    rw [if_neg (by decide)]
  rw [hagg, hm]
  refine ⟨?_, rfl, ?_, ?_, ?_⟩
  · exact pollFrom_refreshing (some T0) resp (maxAttempts + 1) 0 0 (by omega)
  · show (pollFrom (some T0) resp 0 0).fetches ≤ maxAttempts + 1
    have := pollFrom_fetches_le (some T0) resp (maxAttempts + 1) 0 0 (by omega)
    omega
  · intro h0
    show (pollFrom (some T0) resp 0 0).fetches = 1
    rw [pollFrom_eq, if_pos (Or.inl h0)]
  · intro hall
    show (pollFrom (some T0) resp 0 0).fetches = maxAttempts + 1
    have := pollFrom_unchanged (some T0) resp hall (maxAttempts + 1) 0 0
      (by omega) (by omega)
    omega

/-- Witness for C9: stored `last_updated = "T0"`, every poll response carrying
`"T1"`. -/
theorem claim_C9_witness :
    (MetricsData.mk (some "T0")).last_updated = some "T0" ∧
    ((handleManualAggregation (some (MetricsData.mk (some "T0")))
        (Except.ok (TriggerResponse.mk "pending"))
        (fun _ : Nat => MetricsData.mk (some "T1"))).refreshing = false ∧
     (handleManualAggregation (some (MetricsData.mk (some "T0")))
        (Except.ok (TriggerResponse.mk "pending"))
        (fun _ : Nat => MetricsData.mk (some "T1"))).errorMsg = none ∧
     (handleManualAggregation (some (MetricsData.mk (some "T0")))
        (Except.ok (TriggerResponse.mk "pending"))
        (fun _ : Nat => MetricsData.mk (some "T1"))).metricsFetches ≤ maxAttempts + 1 ∧
     (((fun _ : Nat => MetricsData.mk (some "T1")) 0).last_updated ≠ some "T0" →
      (handleManualAggregation (some (MetricsData.mk (some "T0")))
        (Except.ok (TriggerResponse.mk "pending"))
        (fun _ : Nat => MetricsData.mk (some "T1"))).metricsFetches = 1) ∧
     ((∀ m, ((fun _ : Nat => MetricsData.mk (some "T1")) m).last_updated = some "T0") →
      (handleManualAggregation (some (MetricsData.mk (some "T0")))
        (Except.ok (TriggerResponse.mk "pending"))
        (fun _ : Nat => MetricsData.mk (some "T1"))).metricsFetches = maxAttempts + 1)) :=
  ⟨rfl, claim_C9_pending_poll_stops "T0" (MetricsData.mk (some "T0"))
    (fun _ : Nat => MetricsData.mk (some "T1")) rfl⟩

end TodoSaaS
